import Mathlib

/-
Verification of the retrieval-and-normalization logic of the statistics
download scripts (statchina_download.py and new_statchina_download.py).

The scripts are shallowly embedded: parsed JSON values become the `JVal`
inductive; Python dicts become association lists preserving insertion
order; fallible Python code (raising exceptions) becomes `Except String`;
Python floats are modelled as rationals (`ℚ`); pandas data frames become
explicit lists of rows.
-/

set_option linter.unusedVariables false

namespace SC

/-- JSON values as produced by the Python json module.  Numbers are
modelled by a single rational-valued constructor (standing for both
Python int and float); objects are association lists in insertion
order (Python dicts have unique keys, so first-match lookup agrees
with dict lookup). -/
inductive JVal where
  | null : JVal
  | bool : Bool → JVal
  | num : ℚ → JVal
  | str : String → JVal
  | arr : List JVal → JVal
  | obj : List (String × JVal) → JVal

/-- First-match lookup in an association list, i.e. Python dict access. -/
def lookupKey {α β : Type} [DecidableEq α] (k : α) : List (α × β) → Option β
  | [] => none
  | (a, b) :: t => if a = k then some b else lookupKey k t

/-- The keys of a dict in insertion order: Python list(j.keys()). -/
def keysOf (kvs : List (String × JVal)) : List String := kvs.map Prod.fst

/-- Python repr of a list of strings, as interpolated by an f-string:
list(j.keys()) renders as [\x27k1\x27, \x27k2\x27]. -/
def pyListRepr (ks : List String) : String :=
  "[" ++ String.intercalate ", " (ks.map (fun k => "\x27" ++ k ++ "\x27")) ++ "]"

/-- Python str(type(j)) for each JSON shape. -/
def pyTypeName : JVal → String
  | .null => "<class \x27NoneType\x27>"
  | .bool _ => "<class \x27bool\x27>"
  | .num _ => "<class \x27float\x27>"
  | .str _ => "<class \x27str\x27>"
  | .arr _ => "<class \x27list\x27>"
  | .obj _ => "<class \x27dict\x27>"

/-- The first key of ks that is present in the dict, with its value
(the fallback-key loop of normalize_tree_json). -/
def firstPresent (kvs : List (String × JVal)) : List String → Option JVal
  | [] => none
  | k :: ks =>
    match lookupKey k kvs with
    | some v => some v
    | none => firstPresent kvs ks

/-- statchina_download.normalize_tree_json: a list is returned as-is; a
dict yields its returndata value, else the first of data/result/datas
present, else an error naming the keys; any other shape is an error. -/
def normalize_tree_json : JVal → Except String JVal
  | .arr l => .ok (.arr l)
  | .obj kvs =>
    match lookupKey "returndata" kvs with
    | some v => .ok v
    | none =>
      match firstPresent kvs ["data", "result", "datas"] with
      | some v => .ok v
      | none =>
        .error ("Dict JSON but no returndata-like field. Keys=" ++ pyListRepr (keysOf kvs))
  | j => .error ("Unexpected JSON type: " ++ pyTypeName j)

/-- statchina_download.normalize_query_json: only a dict containing
returndata is accepted; everything else (a list included) raises an
error that reports the type of the input. -/
def normalize_query_json : JVal → Except String JVal
  | .obj kvs =>
    match lookupKey "returndata" kvs with
    | some v => .ok v
    | none => .error ("Unexpected QueryData JSON structure: " ++ pyTypeName (.obj kvs))
  | j => .error ("Unexpected QueryData JSON structure: " ++ pyTypeName j)

/-- new_statchina_download.extract_tree: a list as-is; a dict yields
returndata, else the data key when its value is a list, else an error
with the comma-joined keys; any other shape is an error. -/
def extract_tree : JVal → Except String JVal
  | .arr l => .ok (.arr l)
  | .obj kvs =>
    match lookupKey "returndata" kvs with
    | some v => .ok v
    | none =>
      match lookupKey "data" kvs with
      | some (.arr l) => .ok (.arr l)
      | _ => .error ("Dict JSON without returndata. Keys=" ++ String.intercalate "," (keysOf kvs))
  | j => .error ("Unexpected JSON type: " ++ pyTypeName j)

/-! Regex decoding of the composite wds string, as done in query_data with
re.search for the patterns zb\.([^_]+), reg\.([^_]+) and sj\.(\d{4}). -/

/-- Match a literal character sequence at the head of s, returning the
remainder on success. -/
def stripLit : List Char → List Char → Option (List Char)
  | [], s => some s
  | _, [] => none
  | c :: cs, d :: ds => if c = d then stripLit cs ds else none

/-- re.search semantics: try the attempt at every position from the left
and return the first success. -/
def reSearch {α : Type} (attempt : List Char → Option α) : List Char → Option α
  | [] => attempt []
  | c :: t =>
    match attempt (c :: t) with
    | some r => some r
    | none => reSearch attempt t

/-- One positional attempt for lit([^_]+): the literal followed by a
nonempty maximal run of non-underscore characters (greedy capture). -/
def capLitNonUnderscore (lit : List Char) (s : List Char) : Option (List Char) :=
  match stripLit lit s with
  | none => none
  | some rest =>
    let cap := rest.takeWhile (fun c => c != '_')
    if cap.isEmpty then none else some cap

/-- One positional attempt for lit(\d{4}): the literal followed by at
least four digits; the capture is the first four. -/
def capLit4Digits (lit : List Char) (s : List Char) : Option (List Char) :=
  match stripLit lit s with
  | none => none
  | some rest =>
    let ds := (rest.takeWhile Char.isDigit).take 4
    if ds.length = 4 then some ds else none

/-- Decimal digits to a natural number, as Python int() on a digit string. -/
def digitsToNat (ds : List Char) : ℕ := ds.foldl (fun a c => a * 10 + (c.toNat - 48)) 0

/-- The indicator code captured by re.search(zb\.([^_]+), wds). -/
def zbOf (wds : String) : Option String :=
  (reSearch (capLitNonUnderscore ['z', 'b', '.']) wds.toList).map (fun cs => String.mk cs)

/-- The region code captured by re.search(reg\.([^_]+), wds). -/
def regOf (wds : String) : Option String :=
  (reSearch (capLitNonUnderscore ['r', 'e', 'g', '.']) wds.toList).map (fun cs => String.mk cs)

/-- The year captured by re.search(sj\.(\d{4}), wds), converted by int(). -/
def sjOf (wds : String) : Option ℤ :=
  (reSearch (capLit4Digits ['s', 'j', '.']) wds.toList).map (fun ds => (digitsToNat ds : ℤ))

/-! Python float() on the decoded value, modelled over ℚ. -/

/-- Parse an unsigned decimal mantissa: digits, optionally followed by a
point and digits; at least one digit overall. -/
def parseMantissa (cs : List Char) : Option (ℚ × List Char) :=
  let ip := cs.takeWhile Char.isDigit
  let r1 := cs.drop ip.length
  match r1 with
  | '.' :: r2 =>
    let fp := r2.takeWhile Char.isDigit
    if ip.isEmpty && fp.isEmpty then none
    else some ((digitsToNat ip : ℚ) + (digitsToNat fp : ℚ) / ((10 : ℚ) ^ fp.length), r2.drop fp.length)
  | _ => if ip.isEmpty then none else some ((digitsToNat ip : ℚ), r1)

/-- Parse an optional exponent part (e or E, optional sign, digits). -/
def parseExponent : List Char → Option (ℤ × List Char)
  | [] => some (0, [])
  | c :: rest =>
    if c = 'e' ∨ c = 'E' then
      match rest with
      | '+' :: r2 =>
        let ds := r2.takeWhile Char.isDigit
        if ds.isEmpty then none else some ((digitsToNat ds : ℤ), r2.drop ds.length)
      | '-' :: r2 =>
        let ds := r2.takeWhile Char.isDigit
        if ds.isEmpty then none else some (-(digitsToNat ds : ℤ), r2.drop ds.length)
      | r2 =>
        let ds := r2.takeWhile Char.isDigit
        if ds.isEmpty then none else some ((digitsToNat ds : ℤ), r2.drop ds.length)
    else some (0, c :: rest)

/-- Python float(s) on a decimal-literal string: surrounding whitespace,
optional sign, mantissa, optional exponent.  Returns none where float()
raises ValueError.  (The special spellings inf and nan are outside the
rational model and not needed by any data value in scope.) -/
def parseFloat? (s : String) : Option ℚ :=
  let cs := s.toList.dropWhile Char.isWhitespace
  let sgncs : ℚ × List Char :=
    match cs with
    | '+' :: r => (1, r)
    | '-' :: r => (-1, r)
    | r => (1, r)
  match parseMantissa sgncs.2 with
  | none => none
  | some (m, r1) =>
    match parseExponent r1 with
    | none => none
    | some (e, r2) =>
      if (r2.dropWhile Char.isWhitespace).isEmpty then some (sgncs.1 * m * (10 : ℚ) ^ e)
      else none

/-- Python float(val) over a JSON value: numbers pass through, booleans
coerce, strings parse (ValueError when non-numeric), and the remaining
shapes raise TypeError. -/
def pyFloat : JVal → Except String ℚ
  | .num q => .ok q
  | .bool b => .ok (if b then 1 else 0)
  | .str s =>
    match parseFloat? s with
    | some q => .ok q
    | none => .error ("could not convert string to float: " ++ s)
  | .null => .error "float() argument must be a string or a real number, not NoneType"
  | .arr _ => .error "float() argument must be a string or a real number, not list"
  | .obj _ => .error "float() argument must be a string or a real number, not dict"

/-- Python val in (None, ""): equality against None or the empty string. -/
def isNullOrEmptyStr : JVal → Bool
  | .null => true
  | .str s => s == ""
  | _ => false

/-- The value conversion of query_data:
float(val) if val not in (None, "") else None. -/
def decodeValue (v : JVal) : Except String (Option ℚ) :=
  if isNullOrEmptyStr v then .ok none
  else (pyFloat v).map some

/-- One decoded row of the query_data table. -/
structure Row where
  reg : Option String
  year : Option ℤ
  value : Option ℚ
  zb : Option String
deriving DecidableEq

/-- Python dict .get(k, dflt). -/
def pyGet (kvs : List (String × JVal)) (k : String) (dflt : JVal) : JVal :=
  (lookupKey k kvs).getD dflt

/-- The per-node body of the query_data loop: read wds (default "") and
data.data (defaults {} then None), decode the three wds components, and
convert the value; a non-convertible value raises out of the loop. -/
def rowOfNode : JVal → Except String Row
  | .obj kvs =>
    match pyGet kvs "wds" (.str "") with
    | .str wds =>
      match pyGet kvs "data" (.obj []) with
      | .obj dkvs =>
        (decodeValue (pyGet dkvs "data" .null)).map
          (fun v => ⟨regOf wds, sjOf wds, v, zbOf wds⟩)
      | _ => .error "AttributeError: object has no attribute get"
    | _ => .error "TypeError: expected string or bytes-like object"
  | _ => .error "AttributeError: object has no attribute get"

/-- The row-building loop over datanodes: the first raising node aborts
the whole call (Python raises out of the for loop). -/
def mapRows : List JVal → Except String (List Row)
  | [] => .ok []
  | n :: t =>
    match rowOfNode n with
    | .error e => .error e
    | .ok r =>
      match mapRows t with
      | .error e => .error e
      | .ok rs => .ok (r :: rs)

/-- pd.DataFrame(rows).dropna(subset=["reg", "year"]): rows whose region
or year is missing are dropped; on an empty frame the subset columns do
not exist and pandas raises KeyError. -/
def dropnaRegYear : List Row → Except String (List Row)
  | [] => .error "KeyError: [\x27reg\x27, \x27year\x27]"
  | rows => .ok (rows.filter (fun r => r.reg.isSome && r.year.isSome))

/-- The table produced by query_data from the datanodes list. -/
def queryTable (nodes : List JVal) : Except String (List Row) :=
  match mapRows nodes with
  | .error e => .error e
  | .ok rows => dropnaRegYear rows

/-- statchina_download.query_data from the parsed response JSON:
normalize, require datanodes under the payload (its absence, None
included, is the distinct No-datanodes error whose full text also
carries a preview of the raw response, abbreviated here), then decode
rows and drop undecodable ones. -/
def query_data (j : JVal) : Except String (List Row) :=
  match normalize_query_json j with
  | .error e => .error e
  | .ok (.obj kvs) =>
    match lookupKey "datanodes" kvs with
    | none => .error "No datanodes."
    | some .null => .error "No datanodes."
    | some (.arr nodes) => queryTable nodes
    | some _ => .error "TypeError: object is not iterable"
  | .ok _ => .error "AttributeError: object has no attribute get"

/-! Region-name resolution (lines 231-232 of statchina_download.py):
reg_map = tree_reg.rename(columns=...)[["reg", "prov"]].  A data frame is
modelled by its column labels and row-major cells; selection projects the
first matching column and raises KeyError naming the missing labels.
(The embedding assumes distinct column labels after renaming, as the
source trees have; pandas would otherwise select duplicates.) -/

/-- A pandas data frame: column labels plus row-major cells. -/
structure Frame where
  cols : List String
  rows : List (List JVal)

/-- DataFrame.rename(columns=m): relabel any column present in m. -/
def renameCols (m : List (String × String)) (cols : List String) : List String :=
  cols.map (fun c => (lookupKey c m).getD c)

/-- Frame-level rename. -/
def renameFrame (m : List (String × String)) (f : Frame) : Frame :=
  ⟨renameCols m f.cols, f.rows⟩

/-- Index of the first occurrence of a label (length when absent). -/
def colIndex (name : String) : List String → ℕ
  | [] => 0
  | c :: cs => if c = name then 0 else colIndex name cs + 1

/-- df[want]: column projection; missing labels raise KeyError. -/
def selectFrame (want : List String) (f : Frame) : Except String Frame :=
  match want.filter (fun c => decide (c ∉ f.cols)) with
  | [] => .ok ⟨want, f.rows.map (fun r => want.map (fun c => (r[colIndex c f.cols]?).getD .null))⟩
  | missing => .error ("KeyError: " ++ pyListRepr missing ++ " not in index")

/-- The reg_map construction of main:
tree_reg.rename(columns=.obj id to reg and name to prov)[["reg", "prov"]]. -/
def reg_map (tree_reg : Frame) : Except String Frame :=
  selectFrame ["reg", "prov"] (renameFrame [("id", "reg"), ("name", "prov")] tree_reg)

/-! Panel assembly (lines 224-229 of statchina_download.py): per-indicator
tables are outer-merged on (reg, year).  A per-indicator table is its list
of ((reg, year), value) rows; the running panel keeps, per key, the list
of indicator cells in join order.  The merge model matches
pd.merge(how="outer", on=["reg", "year"]) for key-unique tables: left
rows keep their order and gain the right cell (null when the key is
missing on the right); right rows with fresh keys are appended with
nulls in all earlier columns. -/

abbrev RegYear := String × ℤ
abbrev IndTbl := List (RegYear × Option ℚ)
abbrev Panel := List (RegYear × List (Option ℚ))

/-- The right-table cell for a key: null when the key is absent. -/
def cellAt (k : RegYear) (t : IndTbl) : Option ℚ := (lookupKey k t).join

/-- One outer merge of the running panel (of width w) with a table. -/
def mergeOuter (w : ℕ) (p : Panel) (t : IndTbl) : Panel :=
  p.map (fun r => (r.1, r.2 ++ [cellAt r.1 t]))
    ++ (t.filter (fun kv => (lookupKey kv.1 p).isNone)).map
        (fun kv => (kv.1, List.replicate w none ++ [kv.2]))

/-- Fold of outer merges, starting from a panel of width w. -/
def assembleFrom (w : ℕ) (p : Panel) : List IndTbl → Panel
  | [] => p
  | t :: ts => assembleFrom (w + 1) (mergeOuter w p t) ts

/-- The panel assembled from the per-indicator tables in order (the
first table is the initial panel, as in panel = df if panel is None). -/
def assemble (ts : List IndTbl) : Panel := assembleFrom 0 [] ts

/-- The indicator-name table: insertion-ordered names with their tables. -/
abbrev NamedTbls := List (String × IndTbl)

def assembleNamed (nts : NamedTbls) : Panel := assemble (nts.map Prod.snd)

/-- Content observation of the assembled panel: the cell of row k in the
column named name (none when the row or the column does not exist). -/
def panelCell (nts : NamedTbls) (k : RegYear) (name : String) : Option (Option ℚ) :=
  (lookupKey k (assembleNamed nts)).bind (fun row => row[colIndex name (nts.map Prod.fst)]?)

/-- A query_data table as a keyed indicator table (rows surviving dropna
have both key parts, so the filterMap loses nothing). -/
def toIndTbl (rows : List Row) : IndTbl :=
  rows.filterMap (fun r =>
    match r.reg, r.year with
    | some g, some y => some ((g, y), r.value)
    | _, _ => none)

/-! The candidate-iteration loop of new_statchina_download.main, over an
abstract network oracle.  Every POST targets the single address BASE_API;
what the loop varies is the (cn, db) code pair.  The oracle gives the
bootstrap GET status per cn and the tree-POST outcome per (cn, db,
wdcode). -/

def BASE_API : String := "https://data.stats.gov.cn/easyquery.htm"

/-- Outcome of one POST as seen by post_json: an HTTP error status
(raise_for_status), a 2xx non-JSON body, or parsed JSON. -/
inductive HttpResult where
  | okJson (j : JVal)
  | okNotJson (preview : String)
  | httpError (status : ℕ)

/-- new_statchina_download.post_json over an already-performed POST. -/
def post_json_result : HttpResult → Except String JVal
  | .httpError s => .error ("HTTPError: " ++ toString s)
  | .okNotJson p => .error ("Not JSON. First 300 chars:\n" ++ p)
  | .okJson j => .ok j

/-- The network as a pure oracle. -/
structure Net where
  bootStatus : String → ℕ
  treeResp : String → String → String → HttpResult

/-- pd.DataFrame(tree) followed by the .empty check, for sequence
payloads (other payload shapes fail the frame constructor). -/
def frameNonEmpty : JVal → Except String Bool
  | .arr l => .ok (!l.isEmpty)
  | _ => .error "ValueError: DataFrame constructor not properly called"

/-- One tree fetch of the loop body: POST, parse, extract, build the
frame and require it nonempty; any raise makes the attempt fail. -/
def fetchTreeOk (net : Net) (cn db wd : String) : Bool :=
  match post_json_result (net.treeResp cn db wd) with
  | .error _ => false
  | .ok j =>
    match extract_tree j with
    | .error _ => false
    | .ok t =>
      match frameNonEmpty t with
      | .ok true => true
      | _ => false

/-- The whole try body for one (cn, db) pair: zb tree then reg tree. -/
def tryCombo (net : Net) (cn db : String) : Bool :=
  fetchTreeOk net cn db "zb" && fetchTreeOk net cn db "reg"

/-- A recorded POST attempt: (address, cn, db, wdcode). -/
abbrev Attempt := String × String × String × String

/-- The POSTs issued for one pair: the reg fetch happens only after the
zb fetch succeeded; both go to BASE_API. -/
def comboAttempts (net : Net) (cn db : String) : List Attempt :=
  if fetchTreeOk net cn db "zb" then
    [(BASE_API, cn, db, "zb"), (BASE_API, cn, db, "reg")]
  else
    [(BASE_API, cn, db, "zb")]

/-- The inner db loop: stop at the first working pair, else move on. -/
def tryDbs (net : Net) (cn : String) : List String → List Attempt × Option String
  | [] => ([], none)
  | db :: rest =>
    if tryCombo net cn db then (comboAttempts net cn db, some db)
    else
      let r := tryDbs net cn rest
      (comboAttempts net cn db ++ r.1, r.2)

def cnCandidates : List String := ["E0102", "E0101", "E0103", "C01"]
def dbCandidates : List String := ["fsnd", "hgnd", "csyd"]

/-- The outer cn loop: a non-200 bootstrap skips the whole cn; a working
pair returns it; exhausting everything returns none (the final raise). -/
def runCns (net : Net) : List String → List Attempt × Option (String × String)
  | [] => ([], none)
  | cn :: rest =>
    if net.bootStatus cn = 200 then
      match tryDbs net cn dbCandidates with
      | (as, some db) => (as, some (cn, db))
      | (as, none) =>
        let r := runCns net rest
        (as ++ r.1, r.2)
    else runCns net rest

/-- new_statchina_download.main over the oracle: the trace of POST
attempts and the successful pair, when one exists. -/
def runMain (net : Net) : List Attempt × Option (String × String) := runCns net cnCandidates

/-- Whether a (cn, db) pair goes through: bootstrap 200 and both trees. -/
def comboPasses (net : Net) (p : String × String) : Bool :=
  decide (net.bootStatus p.1 = 200) && tryCombo net p.1 p.2

/-- All candidate pairs in attempt order. -/
def allPairs : List (String × String) :=
  (cnCandidates.map (fun cn => dbCandidates.map (fun db => (cn, db)))).flatten

/-! Helper lemmas about association-list lookup. -/

theorem lookupKey_eq_none_iff {α β : Type} [DecidableEq α] (k : α) :
    ∀ l : List (α × β), lookupKey k l = none ↔ k ∉ l.map Prod.fst := by
  intro l
  induction l with
  | nil => simp [lookupKey]
  | cons hd tl ih =>
    obtain ⟨a, b⟩ := hd
    by_cases h : a = k
    · subst h
      simp [lookupKey]
    · simp [lookupKey, h, ih, Ne.symm h]

theorem mem_of_lookupKey_eq_some {α β : Type} [DecidableEq α] {k : α} {v : β} :
    ∀ {l : List (α × β)}, lookupKey k l = some v → (k, v) ∈ l := by
  intro l
  induction l with
  | nil => intro h; simp [lookupKey] at h
  | cons hd tl ih =>
    obtain ⟨a, b⟩ := hd
    intro h
    by_cases ha : a = k
    · subst ha
      simp [lookupKey] at h
      simp [h]
    · simp [lookupKey, ha] at h
      exact List.mem_cons_of_mem _ (ih h)

theorem lookupKey_eq_some_of_mem {α β : Type} [DecidableEq α] {k : α} {v : β} :
    ∀ {l : List (α × β)}, (l.map Prod.fst).Nodup → (k, v) ∈ l → lookupKey k l = some v := by
  intro l
  induction l with
  | nil => intro _ h; simp at h
  | cons hd tl ih =>
    obtain ⟨a, b⟩ := hd
    intro hnd hm
    rw [List.map_cons, List.nodup_cons] at hnd
    rcases List.mem_cons.mp hm with heq | htl
    · obtain ⟨h1, h2⟩ := Prod.mk.injEq .. ▸ heq.symm
      subst h1; subst h2
      simp [lookupKey]
    · have hak : a ≠ k := by
        intro h
        subst h
        exact hnd.1 (List.mem_map.mpr ⟨(a, v), htl, rfl⟩)
      simp [lookupKey, hak]
      exact ih hnd.2 htl

theorem lookupKey_of_perm {α β : Type} [DecidableEq α] (k : α)
    {l₁ l₂ : List (α × β)} (h : l₁.Perm l₂) (hn : (l₁.map Prod.fst).Nodup) :
    lookupKey k l₁ = lookupKey k l₂ := by
  have hn₂ : (l₂.map Prod.fst).Nodup := ((h.map Prod.fst).nodup_iff).mp hn
  cases hl : lookupKey k l₁ with
  | some v =>
    exact (lookupKey_eq_some_of_mem hn₂ (h.mem_iff.mp (mem_of_lookupKey_eq_some hl))).symm
  | none =>
    cases hl₂ : lookupKey k l₂ with
    | none => rfl
    | some v =>
      have := h.mem_iff.mpr (mem_of_lookupKey_eq_some hl₂)
      rw [lookupKey_eq_some_of_mem hn this] at hl
      exact hl.symm

theorem any_of_perm {α : Type} (f : α → Bool) {l₁ l₂ : List α} (h : l₁.Perm l₂) :
    l₁.any f = l₂.any f := by
  induction h with
  | nil => rfl
  | cons x _ ih => simp [List.any_cons, ih]
  | swap x y l => simp [List.any_cons, Bool.or_left_comm]
  | trans _ _ ih₁ ih₂ => rw [ih₁, ih₂]

theorem lookupKey_append {α β : Type} [DecidableEq α] (k : α) (a b : List (α × β)) :
    lookupKey k (a ++ b) =
      match lookupKey k a with
      | some v => some v
      | none => lookupKey k b := by
  induction a with
  | nil => simp [lookupKey]
  | cons hd tl ih =>
    obtain ⟨x, y⟩ := hd
    by_cases h : x = k
    · simp [lookupKey, h]
    · simp [lookupKey, h, ih]

/-! Characterization of the assembled panel. -/

theorem lookupKey_map_extend (k : RegYear) (t : IndTbl) :
    ∀ p : Panel,
      lookupKey k (p.map (fun r => (r.1, r.2 ++ [cellAt r.1 t]))) =
        (lookupKey k p).map (fun v => v ++ [cellAt k t]) := by
  intro p
  induction p with
  | nil => simp [lookupKey]
  | cons hd tl ih =>
    obtain ⟨a, b⟩ := hd
    by_cases h : a = k
    · subst h
      simp [lookupKey]
    · simp [lookupKey, h, ih]

theorem lookupKey_newRows_of_absent (k : RegYear) (w : ℕ) (p : Panel)
    (hp : lookupKey k p = none) :
    ∀ t : IndTbl,
      lookupKey k ((t.filter (fun kv => (lookupKey kv.1 p).isNone)).map
          (fun kv => (kv.1, List.replicate w none ++ [kv.2]))) =
        (lookupKey k t).map (fun v => List.replicate w none ++ [v]) := by
  intro t
  induction t with
  | nil => simp [lookupKey]
  | cons hd tl ih =>
    obtain ⟨a, v⟩ := hd
    by_cases h : a = k
    · subst h
      simp [List.filter_cons, hp, lookupKey]
    · rw [List.filter_cons]
      by_cases hkeep : (lookupKey a p).isNone
      · simp only [hkeep, if_pos]
        simp [lookupKey, h, ih]
      · simp only [hkeep, Bool.false_eq_true, if_neg, not_false_iff]
        simp [lookupKey, h, ih]

theorem lookupKey_newRows_of_present (k : RegYear) (w : ℕ) (p : Panel)
    (hp : (lookupKey k p).isSome) :
    ∀ t : IndTbl,
      lookupKey k ((t.filter (fun kv => (lookupKey kv.1 p).isNone)).map
          (fun kv => (kv.1, List.replicate w none ++ [kv.2]))) = none := by
  intro t
  induction t with
  | nil => simp [lookupKey]
  | cons hd tl ih =>
    obtain ⟨a, v⟩ := hd
    by_cases h : a = k
    · subst h
      have : ¬ (lookupKey a p).isNone := by
        simp [Option.isNone_iff_eq_none]
        intro hc
        rw [hc] at hp
        simp at hp
      simp [List.filter_cons, this, ih]
    · rw [List.filter_cons]
      by_cases hkeep : (lookupKey a p).isNone
      · simp only [hkeep, if_pos]
        simp [lookupKey, h, ih]
      · simp only [hkeep, Bool.false_eq_true, if_neg, not_false_iff]
        exact ih

theorem lookupKey_mergeOuter (w : ℕ) (p : Panel) (t : IndTbl) (k : RegYear) :
    lookupKey k (mergeOuter w p t) =
      match lookupKey k p with
      | some r => some (r ++ [cellAt k t])
      | none => (lookupKey k t).map (fun v => List.replicate w none ++ [v]) := by
  rw [mergeOuter, lookupKey_append, lookupKey_map_extend]
  cases hp : lookupKey k p with
  | some r => simp
  | none =>
    simp only [Option.map_none]
    exact lookupKey_newRows_of_absent k w p hp t

theorem lookupKey_assembleFrom :
    ∀ (ts : List IndTbl) (w : ℕ) (p : Panel) (k : RegYear),
      lookupKey k (assembleFrom w p ts) =
        match lookupKey k p with
        | some r => some (r ++ ts.map (cellAt k))
        | none =>
          if ts.any (fun t => (lookupKey k t).isSome) then
            some (List.replicate w none ++ ts.map (cellAt k))
          else none := by
  intro ts
  induction ts with
  | nil =>
    intro w p k
    cases hp : lookupKey k p <;> simp [assembleFrom, hp]
  | cons t ts ih =>
    intro w p k
    rw [assembleFrom, ih, lookupKey_mergeOuter]
    cases hp : lookupKey k p with
    | some r =>
      simp [cellAt]
    | none =>
      cases ht : lookupKey k t with
      | some v =>
        have hc : cellAt k t = v := by simp [cellAt, ht]
        simp [List.any_cons, ht, hc, List.append_assoc]
      | none =>
        have hc : cellAt k t = none := by simp [cellAt, ht]
        by_cases hany : ts.any (fun t => (lookupKey k t).isSome)
        · simp [List.any_cons, ht, hany, hc, List.replicate_succ', List.append_assoc]
        · simp [List.any_cons, ht, hany]

theorem lookupKey_assemble (ts : List IndTbl) (k : RegYear) :
    lookupKey k (assemble ts) =
      if ts.any (fun t => (lookupKey k t).isSome) then some (ts.map (cellAt k))
      else none := by
  rw [assemble, lookupKey_assembleFrom]
  simp [lookupKey]

theorem getElem?_colIndex {α : Type} (name : String) :
    ∀ l : List (String × α), (l[colIndex name (l.map Prod.fst)]?).map Prod.snd = lookupKey name l := by
  intro l
  induction l with
  | nil => simp [colIndex, lookupKey]
  | cons hd tl ih =>
    obtain ⟨a, b⟩ := hd
    by_cases h : a = name
    · simp [colIndex, h, lookupKey]
    · simp [colIndex, h, lookupKey, ih]

theorem panelCell_canon (nts : NamedTbls) (k : RegYear) (name : String) :
    panelCell nts k name =
      if (nts.map Prod.snd).any (fun t => (lookupKey k t).isSome) then
        (lookupKey name nts).map (fun t => cellAt k t)
      else none := by
  rw [panelCell, assembleNamed, lookupKey_assemble]
  by_cases hany : (nts.map Prod.snd).any (fun t => (lookupKey k t).isSome)
  · rw [if_pos hany, if_pos hany]
    show ((nts.map Prod.snd).map (cellAt k))[colIndex name (nts.map Prod.fst)]? =
      (lookupKey name nts).map (fun t => cellAt k t)
    rw [List.map_map, List.getElem?_map, ← getElem?_colIndex name nts]
    cases nts[colIndex name (nts.map Prod.fst)]? <;> simp
  · simp [hany]

/-! Characterization of the candidate-iteration loop. -/

theorem tryDbs_snd (net : Net) (cn : String) :
    ∀ dbs : List String, (tryDbs net cn dbs).2 = (dbs.filter (tryCombo net cn)).head? := by
  intro dbs
  induction dbs with
  | nil => rfl
  | cons db rest ih =>
    unfold tryDbs
    by_cases h : tryCombo net cn db
    · simp [h, List.filter_cons]
    · simp [h, List.filter_cons, ih]

theorem filter_pairs_block (net : Net) (cn : String) (hb : net.bootStatus cn = 200) :
    ∀ dbs : List String,
      (dbs.map (fun db => (cn, db))).filter (comboPasses net) =
        (dbs.filter (tryCombo net cn)).map (fun db => (cn, db)) := by
  intro dbs
  induction dbs with
  | nil => rfl
  | cons db rest ih =>
    simp only [List.map_cons, List.filter_cons]
    have hpass : comboPasses net (cn, db) = tryCombo net cn db := by
      simp [comboPasses, hb]
    rw [hpass]
    by_cases h : tryCombo net cn db <;> simp [h, ih]

theorem filter_pairs_block_bootfail (net : Net) (cn : String) (hb : ¬ net.bootStatus cn = 200) :
    ∀ dbs : List String,
      (dbs.map (fun db => (cn, db))).filter (comboPasses net) = [] := by
  intro dbs
  induction dbs with
  | nil => rfl
  | cons db rest ih =>
    simp only [List.map_cons, List.filter_cons]
    have hpass : comboPasses net (cn, db) = false := by
      simp [comboPasses, hb]
    simp [hpass, ih]

theorem runCns_snd (net : Net) :
    ∀ cns : List String,
      (runCns net cns).2 =
        (((cns.map (fun cn => dbCandidates.map (fun db => (cn, db)))).flatten).filter
            (comboPasses net)).head? := by
  intro cns
  induction cns with
  | nil => rfl
  | cons cn rest ih =>
    simp only [List.map_cons, List.flatten_cons, List.filter_append]
    by_cases hb : net.bootStatus cn = 200
    · rw [filter_pairs_block net cn hb dbCandidates]
      have hsnd := tryDbs_snd net cn dbCandidates
      unfold runCns
      rw [if_pos hb]
      cases htd : tryDbs net cn dbCandidates with
      | mk as o =>
        rw [htd] at hsnd
        cases o with
        | some db =>
          cases hf : dbCandidates.filter (tryCombo net cn) with
          | nil => rw [hf] at hsnd; simp at hsnd
          | cons d tl =>
            rw [hf] at hsnd
            simp only [List.head?_cons] at hsnd
            have hdb : db = d := by
              simpa using hsnd
            subst hdb
            simp
        | none =>
          cases hf : dbCandidates.filter (tryCombo net cn) with
          | cons d tl => rw [hf] at hsnd; simp at hsnd
          | nil => simp [ih]
    · rw [filter_pairs_block_bootfail net cn hb dbCandidates]
      unfold runCns
      rw [if_neg hb]
      simp [ih]

theorem comboAttempts_address (net : Net) (cn db : String) :
    ∀ a ∈ comboAttempts net cn db, a.1 = BASE_API := by
  intro a ha
  unfold comboAttempts at ha
  by_cases h : fetchTreeOk net cn db "zb"
  · rw [if_pos h] at ha
    simp only [List.mem_cons, List.not_mem_nil, or_false] at ha
    rcases ha with rfl | rfl <;> rfl
  · rw [if_neg h] at ha
    simp only [List.mem_cons, List.not_mem_nil, or_false] at ha
    rw [ha]

theorem tryDbs_address (net : Net) (cn : String) :
    ∀ dbs : List String, ∀ a ∈ (tryDbs net cn dbs).1, a.1 = BASE_API := by
  intro dbs
  induction dbs with
  | nil => intro a ha; simp [tryDbs] at ha
  | cons db rest ih =>
    intro a ha
    unfold tryDbs at ha
    by_cases h : tryCombo net cn db
    · rw [if_pos h] at ha
      exact comboAttempts_address net cn db a ha
    · rw [if_neg h] at ha
      simp only [List.mem_append] at ha
      rcases ha with ha | ha
      · exact comboAttempts_address net cn db a ha
      · exact ih a ha

theorem runCns_address (net : Net) :
    ∀ cns : List String, ∀ a ∈ (runCns net cns).1, a.1 = BASE_API := by
  intro cns
  induction cns with
  | nil => intro a ha; simp [runCns] at ha
  | cons cn rest ih =>
    intro a ha
    unfold runCns at ha
    by_cases hb : net.bootStatus cn = 200
    · rw [if_pos hb] at ha
      cases htd : tryDbs net cn dbCandidates with
      | mk as o =>
        rw [htd] at ha
        have has : ∀ x ∈ as, x.1 = BASE_API := by
          intro x hx
          have := tryDbs_address net cn dbCandidates x
          rw [htd] at this
          exact this hx
        cases o with
        | some db => exact has a ha
        | none =>
          simp only [List.mem_append] at ha
          rcases ha with ha | ha
          · exact has a ha
          · exact ih a ha
    · rw [if_neg hb] at ha
      exact ih a ha

/-- A concrete oracle: every bootstrap succeeds; the fsnd tree POSTs fail
with HTTP 500 (an error other than 404), the hgnd tree POSTs return a
one-node tree, and everything else is a 404. -/
def net0 : Net where
  bootStatus := fun _ => 200
  treeResp := fun _ db _ =>
    match db with
    | "fsnd" => .httpError 500
    | "hgnd" => .okJson (.arr [.obj [("id", .str "110000"), ("name", .str "Beijing")]])
    | _ => .httpError 404

/-! Helper facts for region-name resolution. -/

/-- Observation of a selection result: the column labels on success. -/
def colsOfResult : Except String Frame → Option (List String)
  | .ok g => some g.cols
  | .error _ => none

theorem mem_renamed_reg (cols : List String) :
    "reg" ∈ renameCols [("id", "reg"), ("name", "prov")] cols ↔
      ("id" ∈ cols ∨ "reg" ∈ cols) := by
  unfold renameCols
  rw [List.mem_map]
  constructor
  · rintro ⟨c, hc, he⟩
    by_cases h1 : c = "id"
    · exact Or.inl (h1 ▸ hc)
    · by_cases h2 : c = "name"
      · subst h2
        simp [lookupKey] at he
      · have hnone : lookupKey c [(("id" : String), ("reg" : String)), ("name", "prov")] = none := by
          simp only [lookupKey]
          rw [if_neg (fun hh => h1 hh.symm), if_neg (fun hh => h2 hh.symm)]
        rw [hnone] at he
        simp at he
        exact Or.inr (he ▸ hc)
  · rintro (h | h)
    · exact ⟨"id", h, by simp [lookupKey]⟩
    · exact ⟨"reg", h, by simp [lookupKey]⟩

theorem mem_renamed_prov (cols : List String) :
    "prov" ∈ renameCols [("id", "reg"), ("name", "prov")] cols ↔
      ("name" ∈ cols ∨ "prov" ∈ cols) := by
  unfold renameCols
  rw [List.mem_map]
  constructor
  · rintro ⟨c, hc, he⟩
    by_cases h1 : c = "id"
    · subst h1
      simp [lookupKey] at he
    · by_cases h2 : c = "name"
      · exact Or.inl (h2 ▸ hc)
      · have hnone : lookupKey c [(("id" : String), ("reg" : String)), ("name", "prov")] = none := by
          simp only [lookupKey]
          rw [if_neg (fun hh => h1 hh.symm), if_neg (fun hh => h2 hh.symm)]
        rw [hnone] at he
        simp at he
        exact Or.inr (he ▸ hc)
  · rintro (h | h)
    · exact ⟨"name", h, by simp [lookupKey]⟩
    · exact ⟨"prov", h, by simp [lookupKey]⟩

/-! The claims. -/

/-- Claim C1: for the input wds string zb.A0101_reg.110000_sj.2019, the
data-node decoding in query_data yields indicator code A0101, region
code 110000 and the integer year 2019 (both at the level of the three
regex captures and at the level of the decoded row). -/
theorem query_wds_decoding :
    zbOf "zb.A0101_reg.110000_sj.2019" = some "A0101" ∧
    regOf "zb.A0101_reg.110000_sj.2019" = some "110000" ∧
    sjOf "zb.A0101_reg.110000_sj.2019" = some 2019 ∧
    rowOfNode (.obj [("wds", .str "zb.A0101_reg.110000_sj.2019"),
        ("data", .obj [("data", .null)])]) =
      .ok ⟨some "110000", some 2019, none, some "A0101"⟩ :=
  ⟨by decide, by decide, by decide, rfl⟩

/-- Claim C2, counterexample: the claim says the response normalizer
returns every sequence input unchanged for both tree and query
responses, but normalize_query_json rejects the sequence input with an
error that names the type list, so the claim is false as stated. -/
theorem normalize_query_json_rejects_sequence :
    normalize_query_json (.arr []) ≠ .ok (.arr []) ∧
    normalize_query_json (.arr []) =
      .error "Unexpected QueryData JSON structure: <class \x27list\x27>" :=
  ⟨fun h => Except.noConfusion h, rfl⟩

/-- Claim C2, amended: only the tree normalizer returns a sequence input
unchanged; the query normalizer raises on every sequence input. -/
theorem normalizer_sequence_passthrough (l : List JVal) :
    normalize_tree_json (.arr l) = .ok (.arr l) ∧
    normalize_query_json (.arr l) =
      .error "Unexpected QueryData JSON structure: <class \x27list\x27>" :=
  ⟨rfl, rfl⟩

/-- Claim C3: every row of a successfully returned query_data table has
a decoded region and a decoded year, and the row of a node whose wds
lacks a decodable region or year component is absent from the table. -/
theorem query_rows_undecodable_dropped (nodes : List JVal) (tbl : List Row)
    (h : queryTable nodes = .ok tbl) :
    (∀ r ∈ tbl, r.reg.isSome ∧ r.year.isSome) ∧
    (∀ node ∈ nodes, ∀ r : Row, rowOfNode node = .ok r →
      r.reg = none ∨ r.year = none → r ∉ tbl) := by
  unfold queryTable at h
  cases hm : mapRows nodes with
  | error e => rw [hm] at h; exact absurd h (by simp)
  | ok rows =>
    rw [hm] at h
    cases rows with
    | nil => simp [dropnaRegYear] at h
    | cons r0 rs =>
      simp only [dropnaRegYear, Except.ok.injEq] at h
      subst h
      constructor
      · intro r hr
        have hp := List.of_mem_filter hr
        simp only [Bool.and_eq_true] at hp
        exact hp
      · intro node hn r hro hnone hmem
        have hp := List.of_mem_filter hmem
        rcases hnone with h1 | h1 <;> rw [h1] at hp <;> simp at hp

/-- Claim C3, witness: a two-node datanodes list in which the second
node has no sj segment yields a table containing only the first row;
the undecodable row is absent. -/
theorem query_rows_undecodable_dropped_witness :
    (⟨some "110000", none, none, some "A0101"⟩ : Row) ∉
      ([⟨some "110000", some 2019, none, some "A0101"⟩] : List Row) :=
  (query_rows_undecodable_dropped
      [.obj [("wds", .str "zb.A0101_reg.110000_sj.2019"), ("data", .obj [("data", .null)])],
       .obj [("wds", .str "zb.A0101_reg.110000"), ("data", .obj [("data", .null)])]]
      [⟨some "110000", some 2019, none, some "A0101"⟩] rfl).2
    (.obj [("wds", .str "zb.A0101_reg.110000"), ("data", .obj [("data", .null)])])
    (List.Mem.tail _ (List.Mem.head _))
    ⟨some "110000", none, none, some "A0101"⟩ rfl (Or.inr rfl)

/-- Claim C4: the value decoding maps the source values None and the
empty string to null (and in particular not to zero), and maps the
source string 123.45 to the number 123.45. -/
theorem value_decoding_null_empty_numeric :
    decodeValue .null = .ok none ∧
    decodeValue (.str "") = .ok none ∧
    decodeValue (.str "123.45") = .ok (some (123.45 : ℚ)) ∧
    decodeValue (.str "") ≠ .ok (some 0) := by
  refine ⟨rfl, rfl, ?_, fun h => Option.noConfusion (Except.ok.inj h)⟩
  have h1 : decodeValue (.str "123.45") =
      .ok (some ((1 : ℚ) * ((123 : ℚ) + (45 : ℚ) / (10 : ℚ) ^ (2 : ℕ)) * (10 : ℚ) ^ (0 : ℤ))) := rfl
  have h2 : (1 : ℚ) * ((123 : ℚ) + (45 : ℚ) / (10 : ℚ) ^ (2 : ℕ)) * (10 : ℚ) ^ (0 : ℤ) = 123.45 := by
    norm_num
  rw [h1, h2]

/-- Claim C5: outer-joining an indicator table holding regions 11 and 12
for year 2020 with one holding regions 11 and 13 for year 2020 yields a
panel with exactly the rows 11, 12 and 13 for 2020, with null in the
column of the table from which a region is missing. -/
theorem panel_outer_join_scenario :
    assemble [[(("11", 2020), some 1), (("12", 2020), some 2)],
              [(("11", 2020), some 3), (("13", 2020), some 4)]] =
      [(("11", 2020), [some 1, some 3]),
       (("12", 2020), [some 2, none]),
       (("13", 2020), [none, some 4])] := by decide

/-- Claim C6: panel assembly is invariant under reordering of the
indicator-name table: for permuted table lists (with the indicator
names distinct, and each table keyed uniquely by region-year as the
data model prescribes) every cell of the assembled panels agrees and
the same region-year rows exist, so the contents differ at most in
column order. -/
theorem assemble_reorder_invariant (ts1 ts2 : NamedTbls) (hperm : ts1.Perm ts2)
    (hnames : (ts1.map Prod.fst).Nodup)
    (hkeys : ∀ nt ∈ ts1, ((nt.2 : IndTbl).map Prod.fst).Nodup) :
    (∀ k name, panelCell ts1 k name = panelCell ts2 k name) ∧
    (∀ k, (lookupKey k (assembleNamed ts1)).isSome = (lookupKey k (assembleNamed ts2)).isSome) := by
  have hanyeq : ∀ k : RegYear,
      ((ts1.map Prod.snd).any (fun t => (lookupKey k t).isSome)) =
        ((ts2.map Prod.snd).any (fun t => (lookupKey k t).isSome)) :=
    fun k => any_of_perm _ (hperm.map Prod.snd)
  constructor
  · intro k name
    rw [panelCell_canon, panelCell_canon, hanyeq k, lookupKey_of_perm name hperm hnames]
  · intro k
    rw [assembleNamed, assembleNamed, lookupKey_assemble, lookupKey_assemble, hanyeq k]
    by_cases hc : (ts2.map Prod.snd).any (fun t => (lookupKey k t).isSome) <;> simp [hc]

/-- Claim C6, witness: swapping two one-row indicator tables leaves the
cell of row (11, 2020) in column b unchanged. -/
theorem assemble_reorder_invariant_witness :
    panelCell [("a", [(("11", 2020), some 1)]), ("b", [(("12", 2020), some 2)])]
        ("11", 2020) "b" =
      panelCell [("b", [(("12", 2020), some 2)]), ("a", [(("11", 2020), some 1)])]
        ("11", 2020) "b" :=
  (assemble_reorder_invariant
      [("a", [(("11", 2020), some 1)]), ("b", [(("12", 2020), some 2)])]
      [("b", [(("12", 2020), some 2)]), ("a", [(("11", 2020), some 1)])]
      (by decide) (by decide) (by decide)).1 ("11", 2020) "b"

/-- Claim C7, counterexample: on a dict containing none of the
recognized keys, normalize_query_json reports only the type of the
input, never its keys: two dicts with different keys produce the same
message, so the claim that every normalizer enumerates the actual keys
is false as stated. -/
theorem normalize_query_json_reports_type_not_keys :
    normalize_query_json (.obj [("foo", .null)]) =
      .error "Unexpected QueryData JSON structure: <class \x27dict\x27>" ∧
    normalize_query_json (.obj [("bar", .null)]) =
      .error "Unexpected QueryData JSON structure: <class \x27dict\x27>" ∧
    normalize_query_json (.obj [("foo", .null)]) =
      normalize_query_json (.obj [("bar", .null)]) :=
  ⟨rfl, rfl, rfl⟩

/-- Claim C7, amended: on a mapping containing none of the recognized
payload keys, normalize_tree_json and extract_tree fail with an error
enumerating the actual keys of the mapping, while normalize_query_json
fails with a message that reports only the type dict. -/
theorem normalizer_unrecognized_keys (kvs : List (String × JVal))
    (h1 : "returndata" ∉ keysOf kvs) (h2 : "data" ∉ keysOf kvs)
    (h3 : "result" ∉ keysOf kvs) (h4 : "datas" ∉ keysOf kvs) :
    normalize_tree_json (.obj kvs) =
      .error ("Dict JSON but no returndata-like field. Keys=" ++ pyListRepr (keysOf kvs)) ∧
    extract_tree (.obj kvs) =
      .error ("Dict JSON without returndata. Keys=" ++ String.intercalate "," (keysOf kvs)) ∧
    normalize_query_json (.obj kvs) =
      .error "Unexpected QueryData JSON structure: <class \x27dict\x27>" := by
  have l1 : lookupKey "returndata" kvs = none := (lookupKey_eq_none_iff _ kvs).mpr h1
  have l2 : lookupKey "data" kvs = none := (lookupKey_eq_none_iff _ kvs).mpr h2
  have l3 : lookupKey "result" kvs = none := (lookupKey_eq_none_iff _ kvs).mpr h3
  have l4 : lookupKey "datas" kvs = none := (lookupKey_eq_none_iff _ kvs).mpr h4
  refine ⟨?_, ?_, ?_⟩
  · simp [normalize_tree_json, l1, firstPresent, l2, l3, l4]
  · simp [extract_tree, l1, l2]
  · have h : normalize_query_json (.obj kvs) =
        .error ("Unexpected QueryData JSON structure: " ++ pyTypeName (.obj kvs)) := by
      simp [normalize_query_json, l1]
    rw [h]
    rfl

/-- Claim C7, witness: the three normalizers on the dict with the single
unrecognized key foo. -/
theorem normalizer_unrecognized_keys_witness :
    normalize_tree_json (.obj [("foo", .null)]) =
      .error ("Dict JSON but no returndata-like field. Keys=" ++ pyListRepr (keysOf [("foo", .null)])) ∧
    extract_tree (.obj [("foo", .null)]) =
      .error ("Dict JSON without returndata. Keys=" ++ String.intercalate "," (keysOf [("foo", .null)])) ∧
    normalize_query_json (.obj [("foo", .null)]) =
      .error "Unexpected QueryData JSON structure: <class \x27dict\x27>" :=
  normalizer_unrecognized_keys [("foo", .null)] (by decide) (by decide) (by decide) (by decide)

/-- Claim C8, counterexample: in the concrete run net0 the first
candidate pair fails with HTTP 500 (an error other than 404) and the
loop still proceeds to the next candidate pair and succeeds, and all
three POST attempts of the run target the single address BASE_API: what
the fallback iterates is (cn, db) code pairs, not a list of candidate
base addresses, and non-404 errors are not treated differently. -/
theorem fallback_counterexample :
    (runMain net0).1.map (fun a => a.1) = [BASE_API, BASE_API, BASE_API] ∧
    (runMain net0).1.map (fun a => (a.2.1, a.2.2.1)) =
      [("E0102", "fsnd"), ("E0102", "hgnd"), ("E0102", "hgnd")] ∧
    (runMain net0).2 = some ("E0102", "hgnd") ∧
    net0.treeResp "E0102" "fsnd" "zb" = .httpError 500 :=
  ⟨by decide, by decide, by decide, rfl⟩

/-- Claim C8, amended: the fallback iterates candidate (cn, db) code
pairs in a fixed order against the single base address BASE_API; a
candidate pair succeeds exactly when its bootstrap returns 200 and both
tree fetches parse to a nonempty tree, any failure (an HTTP error of
any status included) moves to the next pair, the first passing pair in
order is the result, and the run fails (returns none) only when no pair
in the list passes. -/
theorem fallback_codepair_characterization (net : Net) :
    (runMain net).2 = (allPairs.filter (comboPasses net)).head? ∧
    ∀ a ∈ (runMain net).1, a.1 = BASE_API :=
  ⟨runCns_snd net cnCandidates, runCns_address net cnCandidates⟩

/-- Claim C8, amended, witness: the characterization applied to the
concrete oracle net0 and its first recorded attempt. -/
theorem fallback_codepair_characterization_witness :
    (runMain net0).2 = (allPairs.filter (comboPasses net0)).head? ∧
    ((BASE_API, "E0102", "fsnd", "zb") : Attempt).1 = BASE_API :=
  ⟨(fallback_codepair_characterization net0).1,
    (fallback_codepair_characterization net0).2 (BASE_API, "E0102", "fsnd", "zb") (by decide)⟩

/-- Claim C9: region-name resolution accepts either of two code fields
(id, or an already-present reg) and either of two name fields (name, or
an already-present prov), and fails explicitly with a KeyError rather
than producing blank names when neither variant of a field is present. -/
theorem reg_map_defensive (f : Frame) :
    ((("id" ∈ f.cols ∨ "reg" ∈ f.cols) ∧ ("name" ∈ f.cols ∨ "prov" ∈ f.cols)) →
      colsOfResult (reg_map f) = some ["reg", "prov"]) ∧
    ((("id" ∉ f.cols ∧ "reg" ∉ f.cols) ∨ ("name" ∉ f.cols ∧ "prov" ∉ f.cols)) →
      colsOfResult (reg_map f) = none) := by
  constructor
  · rintro ⟨hcode, hname⟩
    have hr : "reg" ∈ renameCols [("id", "reg"), ("name", "prov")] f.cols :=
      (mem_renamed_reg f.cols).mpr hcode
    have hp : "prov" ∈ renameCols [("id", "reg"), ("name", "prov")] f.cols :=
      (mem_renamed_prov f.cols).mpr hname
    unfold reg_map selectFrame renameFrame
    have hfil : (["reg", "prov"].filter
        (fun c => decide (c ∉ renameCols [("id", "reg"), ("name", "prov")] f.cols))) = [] := by
      simp [List.filter_cons, hr, hp]
    rw [hfil]
    rfl
  · intro hmiss
    have hne : ∃ c, c ∈ (["reg", "prov"].filter
        (fun c => decide (c ∉ renameCols [("id", "reg"), ("name", "prov")] f.cols))) := by
      rcases hmiss with ⟨h1, h2⟩ | ⟨h1, h2⟩
      · refine ⟨"reg", List.mem_filter.mpr ⟨by simp, ?_⟩⟩
        simp only [decide_eq_true_eq]
        intro hc
        rcases (mem_renamed_reg f.cols).mp hc with h | h
        · exact h1 h
        · exact h2 h
      · refine ⟨"prov", List.mem_filter.mpr ⟨by simp, ?_⟩⟩
        simp only [decide_eq_true_eq]
        intro hc
        rcases (mem_renamed_prov f.cols).mp hc with h | h
        · exact h1 h
        · exact h2 h
    unfold reg_map selectFrame renameFrame
    obtain ⟨c, hc⟩ := hne
    cases hf : (["reg", "prov"].filter
        (fun c => decide (c ∉ renameCols [("id", "reg"), ("name", "prov")] f.cols))) with
    | nil => rw [hf] at hc; exact absurd hc (List.not_mem_nil c)
    | cons m ms => rfl

/-- Claim C9, witness: a tree frame with the source columns id and name
resolves to the code-to-display-name columns reg and prov. -/
theorem reg_map_defensive_witness :
    colsOfResult (reg_map ⟨["id", "name"], [[.str "110000", .str "Beijing"]]⟩) =
      some ["reg", "prov"] :=
  (reg_map_defensive ⟨["id", "name"], [[.str "110000", .str "Beijing"]]⟩).1
    ⟨Or.inl (by decide), Or.inl (by decide)⟩

/-- Claim C10: the value conversion of query_data is unguarded: a node
whose value is the non-empty non-numeric string abc makes the whole
query_data call raise (the row is not dropped and no null is produced),
while the same response with the parseable value string 123.45 yields
the decoded table. -/
theorem value_cast_partiality :
    query_data (.obj [("returndata", .obj [("datanodes", .arr
        [.obj [("wds", .str "zb.A0101_reg.110000_sj.2019"),
               ("data", .obj [("data", .str "abc")])]])])]) =
      .error "could not convert string to float: abc" ∧
    query_data (.obj [("returndata", .obj [("datanodes", .arr
        [.obj [("wds", .str "zb.A0101_reg.110000_sj.2019"),
               ("data", .obj [("data", .str "123.45")])]])])]) =
      .ok [⟨some "110000", some 2019, some (123.45 : ℚ), some "A0101"⟩] := by
  refine ⟨rfl, ?_⟩
  have h1 : query_data (.obj [("returndata", .obj [("datanodes", .arr
        [.obj [("wds", .str "zb.A0101_reg.110000_sj.2019"),
               ("data", .obj [("data", .str "123.45")])]])])]) =
      .ok [⟨some "110000", some 2019,
        some ((1 : ℚ) * ((123 : ℚ) + (45 : ℚ) / (10 : ℚ) ^ (2 : ℕ)) * (10 : ℚ) ^ (0 : ℤ)),
        some "A0101"⟩] := rfl
  have h2 : (1 : ℚ) * ((123 : ℚ) + (45 : ℚ) / (10 : ℚ) ^ (2 : ℕ)) * (10 : ℚ) ^ (0 : ℤ) = 123.45 := by
    norm_num
  rw [h1, h2]

end SC
